import Mathlib

/-!
Verification development for the YhUserSDK repository.

The repository is a Python client SDK for a chat platform's HTTP API in three
files:
  * `src/YhUserSDK/openapi.py` — the synchronous revision (`class api`), with
    AES-256-GCM token persistence via PyCryptodome;
  * `src/openapi.py`            — the asynchronous revision (`TokenManager`,
    `User`, `Admin`, `Tag`), with Fernet token persistence;
  * `src/request.py`            — `AsyncHTTPClient`, a thin aiohttp wrapper.

The embedding is shallow: Python dicts holding JSON data become the `JVal`
inductive, byte strings become `List Nat` with every element `< 256`,
exceptions become `Except`/`Option`, the network becomes an explicit oracle
parameter, and the HTTP requests a call issues are returned as an explicit
trace list.  Third-party library behaviour (PyCryptodome AES-GCM, base64,
Fernet, aiohttp) is modelled from the libraries' documented interfaces and is
clearly marked as such.
-/

namespace YhSDK

/-- JSON-ish values as produced by `response.json()` in the source and as
stored in the request `data` dicts (ints, strings, booleans, null, objects). -/
inductive JVal where
  | int  (n : Int)
  | str  (s : String)
  | bool (b : Bool)
  | null
  | obj  (fields : List (String × JVal))

/-- `d.get(k)` on a Python dict: the value at the first matching key, if any. -/
def jget (fields : List (String × JVal)) (k : String) : Option JVal :=
  (fields.find? (fun p => p.1 = k)).map (fun p => p.2)

/-- Python `v == 1` for a JSON value `v` (Python treats `True == 1` as true;
for every other non-integer JSON value the comparison is false). -/
def pyEqOne : JVal → Bool
  | .int n  => n = 1
  | .bool b => b
  | _       => false

/-- `None == 1` is false in Python, so a missing `code` field never counts. -/
def codeIsOne (fields : List (String × JVal)) : Bool :=
  match jget fields "code" with
  | some v => pyEqOne v
  | none   => false

/-- The unified result dict built by `api._make_request`
(`src/YhUserSDK/openapi.py` lines 139–151):
`{'success': …, 'code': …, 'message': …, 'data': …}`. -/
structure ReqResult where
  success : Bool
  code    : JVal
  message : JVal
  data    : JVal

/-- Everything that can come out of the `requests.post` + `response.json()`
sequence inside the `try` of `api._make_request`:
  * `resp fields` — the HTTP round-trip succeeded and the body parsed to a
    JSON object with the given fields;
  * `reqExc msg`  — `requests.exceptions.RequestException` was raised;
  * `otherExc msg` — any other exception was raised inside the `try`
    (e.g. `response.json()` raising `ValueError` on a non-JSON body, or a
    JSON body that is not an object making `response_data.get` raise). -/
inductive NetOutcome where
  | resp     (fields : List (String × JVal))
  | reqExc   (msg : String)
  | otherExc (msg : String)

namespace api

/-- `api._make_request` (`src/YhUserSDK/openapi.py` lines 109–151), as a
function of the outcome of its single `requests.post` call.  Every exception
is caught: `RequestException` maps to a failure dict with code `-2`, any
other exception to a failure dict with code `-3`. -/
def make_request (o : NetOutcome) : ReqResult :=
  match o with
  | .resp fields =>
      { success := codeIsOne fields
        code    := (jget fields "code").getD (.int (-1))
        message := (jget fields "msg").getD (.str "操作失败")
        data    := (jget fields "data").getD .null }
  | .reqExc e =>
      { success := false, code := .int (-2)
        message := .str ("网络错误: " ++ e), data := .null }
  | .otherExc e =>
      { success := false, code := .int (-3)
        message := .str ("未知错误: " ++ e), data := .null }

end api

/-!
### Model of Python's `base64` module (`base64.b64encode` / `base64.b64decode`)

Modelled from the Python standard library's documented behaviour, at the level
of byte lists (`List Nat`, each element a byte `< 256`).  The encoded form is
the list of ASCII codes of the base64 text; `61` is the code of the padding
character. -/

/-- ASCII code of the base64 alphabet character for a sextet `n < 64`. -/
def sextetChar (n : Nat) : Nat :=
  if n < 26 then 65 + n
  else if n < 52 then 97 + (n - 26)
  else if n < 62 then 48 + (n - 52)
  else if n = 62 then 43
  else 47

/-- Sextet value of an ASCII code, `none` for characters outside the base64
alphabet (including the padding character `=`, code 61). -/
def charSextet (c : Nat) : Option Nat :=
  if 65 ≤ c ∧ c ≤ 90 then some (c - 65)
  else if 97 ≤ c ∧ c ≤ 122 then some (26 + (c - 97))
  else if 48 ≤ c ∧ c ≤ 57 then some (52 + (c - 48))
  else if c = 43 then some 62
  else if c = 47 then some 63
  else none

/-- `base64.b64encode` on a byte list: groups of three bytes become four
alphabet characters; a trailing group of one or two bytes is padded with `=`
(ASCII 61). -/
def b64encode : List Nat → List Nat
  | [] => []
  | [a] => [sextetChar (a / 4), sextetChar (a % 4 * 16), 61, 61]
  | [a, b] =>
      [sextetChar (a / 4), sextetChar (a % 4 * 16 + b / 16),
       sextetChar (b % 16 * 4), 61]
  | a :: b :: c :: rest =>
      sextetChar (a / 4) :: sextetChar (a % 4 * 16 + b / 16) ::
        sextetChar (b % 16 * 4 + c / 64) :: sextetChar (c % 64) ::
        b64encode rest

/-- `base64.b64decode` on a byte list of ASCII codes: decodes four characters
at a time, honouring `=` padding in the final quartet; `none` models the
`binascii.Error` raised on malformed input. -/
def b64decode : List Nat → Option (List Nat)
  | [] => some []
  | c1 :: c2 :: c3 :: c4 :: rest =>
      (charSextet c1).bind fun s1 =>
      (charSextet c2).bind fun s2 =>
      if c3 = 61 then
        if c4 = 61 ∧ rest = [] then some [s1 * 4 + s2 / 16] else none
      else
        (charSextet c3).bind fun s3 =>
        if c4 = 61 then
          if rest = [] then some [s1 * 4 + s2 / 16, s2 % 16 * 16 + s3 / 4]
          else none
        else
          (charSextet c4).bind fun s4 =>
          (b64decode rest).map fun d =>
            (s1 * 4 + s2 / 16) :: (s2 % 16 * 16 + s3 / 4) ::
              (s3 % 4 * 64 + s4) :: d
  | _ => none

/-!
### Model of PyCryptodome's AES-GCM (`Crypto.Cipher.AES`, `MODE_GCM`)

The development is parameterised over the cipher's primitives: `prf` stands
for the AES-CTR keystream generator (a byte per index, as a function of key
and nonce) and `macF` for the GHASH-based authentication-tag generator.  Only
two facts about the real cipher are used, and both hold of every instance of
this model by construction: encryption and decryption are length-preserving
byte-wise stream operations, and the tag is 16 bytes.

One fact about PyCryptodome is taken from its documentation:
`AES.new(key, AES.MODE_GCM)` **without an explicit `nonce` argument generates
a random 16-byte nonce** (not the 12 bytes the source's comment assumes). -/

/-- Length of the nonce PyCryptodome generates for `AES.new(key, AES.MODE_GCM)`
when no nonce is passed, per its documentation. -/
def GCM_DEFAULT_NONCE_LEN : Nat := 16

/-- One keystream byte (index `i`) of the modelled cipher. -/
def keystreamByte (prf : List Nat → List Nat → Nat → Nat)
    (key nonce : List Nat) (i : Nat) : Nat :=
  prf key nonce i % 256

/-- The GCM stream transform: XOR the data with the keystream, byte by byte.
Applying it twice with the same key and nonce gives the data back, and it
preserves length — as AES-GCM's CTR core does. -/
def gcmStream (prf : List Nat → List Nat → Nat → Nat)
    (key nonce data : List Nat) : List Nat :=
  data.mapIdx fun i b => b ^^^ keystreamByte prf key nonce i

/-- The 16-byte authentication tag of the modelled cipher over a ciphertext. -/
def gcmTag (macF : List Nat → List Nat → List Nat → Nat → Nat)
    (key nonce ct : List Nat) : List Nat :=
  (List.range 16).map fun i => macF key nonce ct i % 256

/-- `cipher.encrypt_and_digest(pt)`: the ciphertext and its tag. -/
def encrypt_and_digest (prf : List Nat → List Nat → Nat → Nat)
    (macF : List Nat → List Nat → List Nat → Nat → Nat)
    (key nonce pt : List Nat) : List Nat × List Nat :=
  (gcmStream prf key nonce pt,
   gcmTag macF key nonce (gcmStream prf key nonce pt))

/-- `cipher.decrypt_and_verify(ct, tag)`: checks the tag and decrypts;
`none` models the `ValueError` ("MAC check failed") raised on mismatch. -/
def decrypt_and_verify (prf : List Nat → List Nat → Nat → Nat)
    (macF : List Nat → List Nat → List Nat → Nat → Nat)
    (key nonce ct tag : List Nat) : Option (List Nat) :=
  if gcmTag macF key nonce ct = tag then some (gcmStream prf key nonce ct)
  else none

/-!
### `src/YhUserSDK/openapi.py` — token encryption helpers of `class api`

`api._get_encryption_key` derives a key with PBKDF2 from a fixed password and
an on-disk salt; with the salt file unchanged between calls, both calls below
see the same derived `key`, so the key is a plain parameter here.  Tokens are
byte lists (the result of `str.encode()`; `bytes.decode()` is the identity in
this byte-level model). -/

namespace api

/-- `api._encrypt_token` (`src/YhUserSDK/openapi.py` lines 51–59):
`cipher = AES.new(key, AES.MODE_GCM)` (fresh random `nonce` — 16 bytes by
PyCryptodome's default), then base64 of `cipher.nonce + ciphertext + tag`. -/
def encrypt_token (prf : List Nat → List Nat → Nat → Nat)
    (macF : List Nat → List Nat → List Nat → Nat → Nat)
    (key nonce token : List Nat) : List Nat :=
  let ct := (encrypt_and_digest prf macF key nonce token).1
  let tag := (encrypt_and_digest prf macF key nonce token).2
  b64encode (nonce ++ ct ++ tag)

/-- `api._decrypt_token` (`src/YhUserSDK/openapi.py` lines 61–74):
base64-decode, split as `nonce = data[:12]`, `tag = data[-16:]`,
`ciphertext = data[12:-16]`, then `decrypt_and_verify`.  Any `ValueError`
(malformed base64, MAC check failure) is caught and re-raised as
`ValueError("无效的加密令牌")`, modelled as `Except.error`. -/
def decrypt_token (prf : List Nat → List Nat → Nat → Nat)
    (macF : List Nat → List Nat → List Nat → Nat → Nat)
    (key : List Nat) (encrypted_token : List Nat) :
    Except String (List Nat) :=
  match b64decode encrypted_token with
  | none => .error "无效的加密令牌"
  | some data =>
      let nonce := data.take 12
      let tag := data.drop (data.length - 16)
      let ciphertext := (data.drop 12).take (data.length - 16 - 12)
      match decrypt_and_verify prf macF key nonce ciphertext tag with
      | some pt => .ok pt
      | none => .error "无效的加密令牌"

/-- `api._save_token` (`src/YhUserSDK/openapi.py` lines 79–89): encrypt the
token to the token file and mirror the plaintext into the environment
variable.  Returns the new (token-file contents, environment variable)
pair. -/
def save_token (prf : List Nat → List Nat → Nat → Nat)
    (macF : List Nat → List Nat → List Nat → Nat → Nat)
    (key nonce token : List Nat) :
    Option (List Nat) × Option (List Nat) :=
  (some (encrypt_token prf macF key nonce token), some token)

/-- `api._load_token` (`src/YhUserSDK/openapi.py` lines 91–104): try the
encrypted token file first; on a missing file or any decryption failure fall
back to `os.environ.get(CHAT_API_TOKEN)` (which is `none` when unset). -/
def load_token (prf : List Nat → List Nat → Nat → Nat)
    (macF : List Nat → List Nat → List Nat → Nat → Nat)
    (key : List Nat) (token_file : Option (List Nat))
    (env : Option (List Nat)) : Option (List Nat) :=
  match token_file with
  | some encrypted =>
      match decrypt_token prf macF key encrypted with
      | .ok t => some t
      | .error _ => env
  | none => env

/-- `api.base_url`. -/
def base_url : String := "https://chat-go.jwzhd.com/v1"

/-- The `deviceId` constant sent by both login implementations. -/
def device_id : String :=
  "Mozilla/5.0 (Windows NT 10.0; Win64; x64) AppleWebKit/537.36 (KHTML, like Gecko) Chrome/126.0.0.0 Safari/537.36 Edg/126.0.0.0"

end api

/-- Python truthiness of an optional string: `None` and `""` are falsy.  This
is the test `if cls.token:` / `if self.token:` performs. -/
def pyTruthy : Option String → Bool
  | none => false
  | some s => s != ""

/-- An HTTP POST issued by the synchronous revision: target URL, the JSON
payload, and the logging label (`action_name`) it was issued under. -/
structure SyncRequest where
  url : String
  data : List (String × JVal)
  action : String

namespace api

/-- The mutable class attributes of `class api` that the claims touch:
`cls.token`, the `token` entry of `cls.headers`, the encrypted token file and
the `CHAT_API_TOKEN` environment variable. -/
structure State where
  token : Option String
  headersToken : Option String
  token_file : Option (List Nat)
  env : Option (List Nat)

/-- `api.login` (`src/YhUserSDK/openapi.py` lines 164–188).  With `force`
false and a truthy stored token it returns the "使用现有令牌" success dict
without touching the network or the state.  Otherwise it POSTs to
`/user/email-login` through `_make_request`; on a success result it stores
`result['data']['token']` into `cls.token`, the headers and `_save_token`.
`result['data']['token']` is evaluated outside any `try`: a missing or
non-dict `data` (`TypeError`/`KeyError`) or a non-string token
(`AttributeError` inside `_save_token`'s `token.encode()`) propagates as an
uncaught exception, modelled as `Except.error`.  `strBytes` models
`str.encode()`.  The result triple is (return value, new state, issued
requests). -/
def login (prf : List Nat → List Nat → Nat → Nat)
    (macF : List Nat → List Nat → List Nat → Nat → Nat)
    (key nonce : List Nat) (strBytes : String → List Nat)
    (net : SyncRequest → NetOutcome) (st : State)
    (email password : String) (force : Bool) :
    Except String (ReqResult × State × List SyncRequest) :=
  if force = false ∧ pyTruthy st.token then
    .ok ({ success := true, code := .int 1
           message := .str "使用现有令牌", data := .null }, st, [])
  else
    let req : SyncRequest :=
      { url := base_url ++ "/user/email-login"
        data := [("email", .str email), ("password", .str password),
                 ("deviceId", .str device_id), ("platform", .str "windows")]
        action := "用户登录" }
    let result := make_request (net req)
    if result.success then
      match result.data with
      | .obj dfields =>
          match jget dfields "token" with
          | some (.str t) =>
              .ok (result,
                   { token := some t, headersToken := some t
                     token_file :=
                       some (encrypt_token prf macF key nonce (strBytes t))
                     env := some (strBytes t) }, [req])
          | some _ => .error "AttributeError: encode"
          | none => .error "KeyError: token"
      | _ => .error "TypeError: data is not a dict"
    else .ok (result, st, [req])

/-- `allow_time` (`src/YhUserSDK/openapi.py` line 196). -/
def allow_time : List String := ["10", "1h", "6h", "12h", "0"]

/-- `time_match` (`src/YhUserSDK/openapi.py` lines 197–203). -/
def time_match : List (String × Int) :=
  [("10", 600), ("1h", 6000), ("6h", 21600), ("12h", 43200), ("0", 0)]

/-- `api.ban_request` (`src/YhUserSDK/openapi.py` lines 193–210): reject a
`time` outside `allow_time` with the code `-4` failure dict and no request;
otherwise POST `gag = time_match[time]` to the gag-member endpoint under the
action label 取消禁言 for `"0"` and 禁言 otherwise. -/
def ban_request (net : SyncRequest → NetOutcome)
    (user_id group_id time : String) : ReqResult × List SyncRequest :=
  if allow_time.contains time then
    let seconds : Int :=
      ((time_match.find? (fun p => p.1 = time)).map (fun p => p.2)).getD 0
    let req : SyncRequest :=
      { url := "https://chat-go.jwzhd.com/v1/group/gag-member"
        data := [("groupId", .str group_id), ("userId", .str user_id),
                 ("gag", .int seconds)]
        action := if time = "0" then "取消禁言" else "禁言" }
    (make_request (net req), [req])
  else
    ({ success := false, code := .int (-4)
       message := .str ("不支持的时间参数: " ++ time), data := .null }, [])

/-- `api.ban` (`src/YhUserSDK/openapi.py` lines 212–215). -/
def ban (net : SyncRequest → NetOutcome) (group_id user_id time : String) :
    ReqResult × List SyncRequest :=
  ban_request net user_id group_id time

/-- `api.unban` (`src/YhUserSDK/openapi.py` lines 217–220). -/
def unban (net : SyncRequest → NetOutcome) (group_id user_id : String) :
    ReqResult × List SyncRequest :=
  ban_request net user_id group_id "0"

/-- `api.kick` (`src/YhUserSDK/openapi.py` lines 222–227). -/
def kick (net : SyncRequest → NetOutcome) (group_id user_id : String) :
    ReqResult × List SyncRequest :=
  let req : SyncRequest :=
    { url := base_url ++ "/group/remove-member"
      data := [("groupId", .str group_id), ("userId", .str user_id)]
      action := "移除成员" }
  (make_request (net req), [req])

end api

/-!
### `src/openapi.py` — the asynchronous revision

`TokenManager` persists the token with Fernet; `fernetEncrypt`/`fernetDecrypt`
are parameters modelling `cipher.encrypt(token.encode())` and
`cipher.decrypt(data).decode()` for the key loaded at construction
(`fernetDecrypt` returning `none` models the `InvalidToken` exception).
Methods return (value, new manager state, issued HTTP requests). -/

/-- The state of the `TokenManager` singleton: `_token` and the contents of
`token.enc` (`none` = file missing). -/
structure TMState where
  token : Option String
  token_file : Option (List Nat)

namespace TokenManager

/-- `TokenManager.load_token` (`src/openapi.py` lines 44–62): `True` at once
if `_token` is set; `False` if the token file is missing; otherwise decrypt
the file, setting `_token` on success and returning `False` on any
exception. -/
def load_token (fernetDecrypt : List Nat → Option String) (st : TMState) :
    Bool × TMState :=
  match st.token with
  | some _ => (true, st)
  | none =>
      match st.token_file with
      | none => (false, st)
      | some encrypted =>
          match fernetDecrypt encrypted with
          | some t => (true, { st with token := some t })
          | none => (false, st)

/-- `TokenManager.save_token` (`src/openapi.py` lines 64–74): encrypt to the
token file and set `_token`. -/
def save_token (fernetEncrypt : String → List Nat) (_st : TMState)
    (token : String) : TMState :=
  { token := some token, token_file := some (fernetEncrypt token) }

end TokenManager

/-- An HTTP POST issued by the asynchronous revision: URL, headers (a header
value is `none` when the Python value is `None`, as for a missing token), and
the payload dict (the model records the dict whether or not it was serialised
with `json.dumps`). -/
structure ARequest where
  url : String
  headers : List (String × Option String)
  data : List (String × JVal)

/-- The network oracle of the asynchronous revision: what the single
`requests.post` call of a method body yields — a parsed value (`JVal.obj` for
JSON bodies, `JVal.str` for text bodies) or a raised exception. -/
def ANet : Type := ARequest → Except String JVal

/-- The `{"code": -1, "msg": …}` error dict the async methods return from
their `except` clauses. -/
def errDict (e : String) : JVal :=
  .obj [("code", .int (-1)), ("msg", .str e)]

/-- The headers of `Admin.ban` (`src/openapi.py` lines 182–189). -/
def banHeaders (token : Option String) : List (String × Option String) :=
  [("User-Agent", some "windows 1.5.47"),
   ("Accept", some "application/x-protobuf"),
   ("Accept-Encoding", some "gzip"),
   ("Host", some "www.yhchat.com"),
   ("Content-Type", some "application/x-protobuf"),
   ("token", token)]

/-- The headers used by `Admin.kick` and the `Tag` methods
(`src/openapi.py`, e.g. lines 218–225): as `banHeaders` but with the
`yhchat.hqycloud.top` host. -/
def kickHeaders (token : Option String) : List (String × Option String) :=
  [("User-Agent", some "windows 1.5.47"),
   ("Accept", some "application/x-protobuf"),
   ("Accept-Encoding", some "gzip"),
   ("Host", some "yhchat.hqycloud.top"),
   ("Content-Type", some "application/x-protobuf"),
   ("token", token)]

/-- The shared shape of every `Admin`/`Tag` method body: issue the single
POST inside `try`, read `response['code']` (for logging; a text response or a
missing key raises, caught by the method's `except` which returns the
`{"code": -1, "msg": str(e)}` dict), and return the response. -/
def postAndCheck (net : ANet) (req : ARequest) (st : TMState) :
    JVal × TMState × List ARequest :=
  match net req with
  | .ok resp =>
      match resp with
      | .obj fields =>
          match jget fields "code" with
          | some _ => (resp, st, [req])
          | none => (errDict "KeyError: code", st, [req])
      | _ => (errDict "TypeError: response is not a dict", st, [req])
  | .error e => (errDict e, st, [req])

/-- The `require_token` decorator (`src/openapi.py` lines 90–98): run
`TokenManager().load_token()`; on failure return
`{"code": -1, "msg": "Authentication required"}` without calling the wrapped
method, otherwise call it on the (possibly refreshed) manager state. -/
def require_token (fernetDecrypt : List Nat → Option String) (st : TMState)
    (body : TMState → JVal × TMState × List ARequest) :
    JVal × TMState × List ARequest :=
  match TokenManager.load_token fernetDecrypt st with
  | (true, st1) => body st1
  | (false, st1) =>
      (.obj [("code", .int (-1)), ("msg", .str "Authentication required")],
       st1, [])

namespace Admin

/-- `Admin.ban` (`src/openapi.py` lines 176–205): guarded by
`require_token`; POSTs `gag = duration` (the argument, unconverted) to the
gag-member endpoint. -/
def ban (fernetDecrypt : List Nat → Option String) (net : ANet)
    (st : TMState) (group_id user_id : String) (duration : JVal) :
    JVal × TMState × List ARequest :=
  require_token fernetDecrypt st fun st1 =>
    postAndCheck net
      { url := "https://chat-go.jwzhd.com/v1/group/gag-member"
        headers := banHeaders st1.token
        data := [("groupId", .str group_id), ("userId", .str user_id),
                 ("gag", duration)] } st1

/-- `Admin.unban` (`src/openapi.py` lines 207–210): guarded by
`require_token`; returns `await self.ban(group_id, user_id, 0)` — the
**integer** `0`. -/
def unban (fernetDecrypt : List Nat → Option String) (net : ANet)
    (st : TMState) (group_id user_id : String) :
    JVal × TMState × List ARequest :=
  require_token fernetDecrypt st fun st1 =>
    ban fernetDecrypt net st1 group_id user_id (.int 0)

/-- `Admin.kick` (`src/openapi.py` lines 212–240): guarded by
`require_token`; POSTs to the remove-member endpoint. -/
def kick (fernetDecrypt : List Nat → Option String) (net : ANet)
    (st : TMState) (group_id user_id : String) :
    JVal × TMState × List ARequest :=
  require_token fernetDecrypt st fun st1 =>
    postAndCheck net
      { url := "https://chat-go.jwzhd.com/v1/group/remove-member"
        headers := kickHeaders st1.token
        data := [("groupId", .str group_id), ("userId", .str user_id)] } st1

end Admin

namespace Tag

/-- `Tag.edit` (`src/openapi.py` lines 242–273): guarded by `require_token`;
POSTs the tag fields to the group-tag edit endpoint.  (The `except` clause of
this method is syntactically unterminated in the source — see the C5
analysis; its evident intent, returning `{"code": -1, "msg": str(e)}` like
every sibling method, is what `postAndCheck` models.) -/
def edit (fernetDecrypt : List Nat → Option String) (net : ANet)
    (st : TMState) (group : String) (id : JVal) (msg : String)
    (color : String) (desc : JVal) (sort : Int) :
    JVal × TMState × List ARequest :=
  require_token fernetDecrypt st fun st1 =>
    postAndCheck net
      { url := "https://chat-go.jwzhd.com/v1/group-tag/edit"
        headers := kickHeaders st1.token
        data := [("id", id), ("groupId", .str group), ("tag", .str msg),
                 ("color", .str color), ("desc", desc), ("sort", .int sort)] }
      st1

/-- `Tag.add` (`src/openapi.py` lines 274–303): guarded by `require_token`;
POSTs the tag fields to the group-tag create endpoint. -/
def add (fernetDecrypt : List Nat → Option String) (net : ANet)
    (st : TMState) (group msg : String) (color : String) (desc : JVal)
    (sort : Int) : JVal × TMState × List ARequest :=
  require_token fernetDecrypt st fun st1 =>
    postAndCheck net
      { url := "https://chat-go.jwzhd.com/v1/group-tag/create"
        headers := kickHeaders st1.token
        data := [("groupId", .str group), ("tag", .str msg),
                 ("color", .str color), ("desc", desc), ("sort", .int sort)] }
      st1

/-- `Tag.rm` (`src/openapi.py` lines 304–329): guarded by `require_token`;
POSTs the tag id to the group-tag delete endpoint. -/
def rm (fernetDecrypt : List Nat → Option String) (net : ANet)
    (st : TMState) (id : JVal) : JVal × TMState × List ARequest :=
  require_token fernetDecrypt st fun st1 =>
    postAndCheck net
      { url := "https://chat-go.jwzhd.com/v1/group-tag/delete"
        headers := kickHeaders st1.token
        data := [("id", id)] } st1

end Tag

namespace User

/-- The headers of `User.login` (`src/openapi.py` lines 134–148). -/
def loginHeaders : List (String × Option String) :=
  [("Accept", some "*/*"),
   ("Accept-Language", some "zh-CN,zh;q=0.9,en;q=0.8,en-GB;q=0.7,en-US;q=0.6"),
   ("Connection", some "keep-alive"),
   ("Origin", some "https://chat.yhchat.com"),
   ("Referer", some "https://chat.yhchat.com/"),
   ("Sec-Fetch-Dest", some "empty"),
   ("Sec-Fetch-Mode", some "cors"),
   ("Sec-Fetch-Site", some "cross-site"),
   ("User-Agent", some api.device_id),
   ("content-type", some "application/json"),
   ("sec-ch-ua", some "\"Not/A)Brand\";v=\"8\", \"Chromium\";v=\"126\", \"Microsoft Edge\";v=\"126\""),
   ("sec-ch-ua-mobile", some "?0"),
   ("sec-ch-ua-platform", some "\"Windows\"")]

/-- `User.login` (`src/openapi.py` lines 120–167).  With a truthy stored
token it returns `{"code": 1, "msg": "already logged in"}` immediately, with
no request and no state change.  Otherwise it POSTs the credentials through
`requests.post` — where `requests` is the `AsyncHttpClient()` wrapper whose
`post` already returns the **parsed body** (a dict or a string, via
`_handle_response`), not a response object.  Line 157 then calls
`result = response.json()` on that parsed body, which has no `.json`
attribute, so every call that reaches the network raises `AttributeError`
inside the `try` and returns the `{"code": -1, "msg": str(e)}` dict from the
`except` clause: the `code == 1` check and the `save_token` call on lines
158–163 are unreachable, and the token is never saved.  An exception raised
by the POST itself (network failure, `AsyncHTTPError`) is caught by the same
`except` clause. -/
def login (net : ANet) (st : TMState)
    (email password : String) : JVal × TMState × List ARequest :=
  if pyTruthy st.token then
    (.obj [("code", .int 1), ("msg", .str "already logged in")], st, [])
  else
    let req : ARequest :=
      { url := "https://chat-go.jwzhd.com/v1/user/email-login"
        headers := loginHeaders
        data := [("email", .str email), ("password", .str password),
                 ("deviceId", .str api.device_id),
                 ("platform", .str "Web")] }
    match net req with
    | .ok _ => (errDict "AttributeError: json", st, [req])
    | .error e => (errDict e, st, [req])

end User

/-!
### `src/request.py` — `AsyncHTTPClient`

The oracle `net` is `aiohttp.ClientSession.request`: one invocation per
element of the returned trace list.  An `Except.error` from the oracle is an
exception raised by the attempt (the attempt still happened); the wrapper
performs no retry. -/

/-- The arguments of one `aiohttp` request. -/
structure HttpRequest where
  method : String
  url : String
  params : Option (List (String × JVal))
  data : Option JVal
  json : Option (List (String × JVal))
  headers : List (String × String)
  cookies : Option (List (String × String))
  allow_redirects : Bool

/-- One aiohttp response: HTTP status, content type, the parsed JSON body
(`none` when `.json()` would raise) and the text body. -/
structure HttpResponse where
  status : Nat
  content_type : String
  json_body : Option JVal
  text_body : String

namespace AsyncHTTPClient

/-- Python's `{**d1, **d2}` dict merge: keys of `d2` win. -/
def pyMerge (d1 d2 : List (String × String)) : List (String × String) :=
  d1.filter (fun p => (d2.find? (fun q => q.1 = p.1)).isNone) ++ d2

/-- `AsyncHTTPClient._handle_response` (`src/request.py` lines 188–212):
parse JSON bodies (other content types fall back to text), then raise
`AsyncHTTPError` when `raise_for_status` is set and the status is ≥ 400; a
parse failure also raises `AsyncHTTPError`. -/
def handle_response (raise_for_status : Bool) (r : HttpResponse) :
    Except String (JVal ⊕ String) :=
  if r.content_type = "application/json" then
    match r.json_body with
    | some j =>
        if raise_for_status ∧ 400 ≤ r.status then .error "HTTP请求失败"
        else .ok (.inl j)
    | none => .error "处理响应时出错"
  else
    if raise_for_status ∧ 400 ≤ r.status then .error "HTTP请求失败"
    else .ok (.inr r.text_body)

/-- `AsyncHTTPClient.request` (`src/request.py` lines 59–102): merge the
session headers with the per-call headers, issue the **single**
`session.request` call, and hand the response to `_handle_response`.  The
second component is the trace of issued attempts. -/
def request (net : HttpRequest → Except String HttpResponse)
    (raise_for_status : Bool) (client_headers : List (String × String))
    (method url : String) (params : Option (List (String × JVal)))
    (data : Option JVal) (json : Option (List (String × JVal)))
    (headers : List (String × String))
    (cookies : Option (List (String × String))) (allow_redirects : Bool) :
    Except String (JVal ⊕ String) × List HttpRequest :=
  let req : HttpRequest :=
    { method := method, url := url, params := params, data := data
      json := json, headers := pyMerge client_headers headers
      cookies := cookies, allow_redirects := allow_redirects }
  (match net req with
   | .ok r => handle_response raise_for_status r
   | .error e => .error e, [req])

/-- `AsyncHTTPClient.get` (`src/request.py` lines 104–121). -/
def get (net : HttpRequest → Except String HttpResponse)
    (raise_for_status : Bool) (client_headers : List (String × String))
    (url : String) (params : Option (List (String × JVal)))
    (headers : List (String × String))
    (cookies : Option (List (String × String))) (allow_redirects : Bool) :
    Except String (JVal ⊕ String) × List HttpRequest :=
  request net raise_for_status client_headers "GET" url params none none
    headers cookies allow_redirects

/-- `AsyncHTTPClient.post` (`src/request.py` lines 123–144). -/
def post (net : HttpRequest → Except String HttpResponse)
    (raise_for_status : Bool) (client_headers : List (String × String))
    (url : String) (data : Option JVal)
    (json : Option (List (String × JVal)))
    (params : Option (List (String × JVal)))
    (headers : List (String × String))
    (cookies : Option (List (String × String))) (allow_redirects : Bool) :
    Except String (JVal ⊕ String) × List HttpRequest :=
  request net raise_for_status client_headers "POST" url params data json
    headers cookies allow_redirects

/-- `AsyncHTTPClient.put` (`src/request.py` lines 146–167). -/
def put (net : HttpRequest → Except String HttpResponse)
    (raise_for_status : Bool) (client_headers : List (String × String))
    (url : String) (data : Option JVal)
    (json : Option (List (String × JVal)))
    (params : Option (List (String × JVal)))
    (headers : List (String × String))
    (cookies : Option (List (String × String))) (allow_redirects : Bool) :
    Except String (JVal ⊕ String) × List HttpRequest :=
  request net raise_for_status client_headers "PUT" url params data json
    headers cookies allow_redirects

/-- `AsyncHTTPClient.delete` (`src/request.py` lines 169–186). -/
def delete (net : HttpRequest → Except String HttpResponse)
    (raise_for_status : Bool) (client_headers : List (String × String))
    (url : String) (params : Option (List (String × JVal)))
    (headers : List (String × String))
    (cookies : Option (List (String × String))) (allow_redirects : Bool) :
    Except String (JVal ⊕ String) × List HttpRequest :=
  request net raise_for_status client_headers "DELETE" url params none none
    headers cookies allow_redirects

end AsyncHTTPClient

/-!
### The syntax defect of `src/openapi.py` (for C5)

Line 273 of `src/openapi.py` — the `return` of `Tag.edit`'s `except` clause —
reads (with `\x7b` the opening-brace character):

    `            return \x7b"code": -1, "msg": str(e`

The dict display and the `str(` call it opens are never closed: the next line
of the file is the statement `@require_token` at method-definition
indentation.  By Python's implicit-line-joining rule an open bracket makes
the parser consume the following lines as part of the same expression, where
the `async def` that soon follows is not valid expression syntax, so
compiling the module raises `SyntaxError` and **no** class or method of
`src/openapi.py` is ever defined.  The string literals on this line contain
no bracket characters, so a plain bracket count over the line is exact. -/

/-- The source text of `src/openapi.py` line 273. -/
def tag_edit_except_line : String :=
  "            return \x7b\"code\": -1, \"msg\": str(e"

/-- Number of opening brackets minus number of closing brackets (`()`, `[]`
and the braces, by character code) in a string. -/
def bracketBalance (s : String) : Int :=
  s.data.foldl
    (fun acc c =>
      if c.toNat = 40 ∨ c.toNat = 91 ∨ c.toNat = 123 then acc + 1
      else if c.toNat = 41 ∨ c.toNat = 93 ∨ c.toNat = 125 then acc - 1
      else acc)
    0

end YhSDK

namespace YhSDK

open api

/-- The base64 alphabet map and its inverse agree on every sextet. -/
theorem charSextet_sextetChar_fin :
    ∀ m : Fin 64, charSextet (sextetChar m.val) = some m.val := by decide

/-- `charSextet` inverts `sextetChar` on sextets. -/
theorem charSextet_sextetChar {n : Nat} (h : n < 64) :
    charSextet (sextetChar n) = some n :=
  charSextet_sextetChar_fin ⟨n, h⟩

/-- No alphabet character is the padding character `=` (code 61). -/
theorem sextetChar_ne_pad_fin : ∀ m : Fin 64, sextetChar m.val ≠ 61 := by
  decide

/-- `sextetChar n ≠ 61` for every sextet `n`. -/
theorem sextetChar_ne_pad {n : Nat} (h : n < 64) : sextetChar n ≠ 61 :=
  sextetChar_ne_pad_fin ⟨n, h⟩

/-- Decoding inverts encoding on byte lists: the round-trip property of the
base64 model. -/
theorem b64decode_b64encode :
    ∀ l : List Nat, (∀ x ∈ l, x < 256) → b64decode (b64encode l) = some l
  | [], _ => rfl
  | [a], h => by
      have ha : a < 256 := h a (by simp)
      have h1 : a / 4 < 64 := by omega
      have h2 : a % 4 * 16 < 64 := by omega
      simp only [b64encode, b64decode, charSextet_sextetChar h1,
        charSextet_sextetChar h2]
      simp only [Option.some_bind]
      simp
      omega
  | [a, b], h => by
      have ha : a < 256 := h a (by simp)
      have hb : b < 256 := h b (by simp)
      have h1 : a / 4 < 64 := by omega
      have h2 : a % 4 * 16 + b / 16 < 64 := by omega
      have h3 : b % 16 * 4 < 64 := by omega
      simp only [b64encode, b64decode, charSextet_sextetChar h1,
        charSextet_sextetChar h2, charSextet_sextetChar h3]
      simp only [Option.some_bind]
      simp [sextetChar_ne_pad h3]
      omega
  | a :: b :: c :: d :: rest, h => by
      have ha : a < 256 := h a (by simp)
      have hb : b < 256 := h b (by simp)
      have hc : c < 256 := h c (by simp)
      have h1 : a / 4 < 64 := by omega
      have h2 : a % 4 * 16 + b / 16 < 64 := by omega
      have h3 : b % 16 * 4 + c / 64 < 64 := by omega
      have h4 : c % 64 < 64 := by omega
      have ih := b64decode_b64encode (d :: rest)
        (fun x hx => h x (by simp at hx ⊢; tauto))
      simp only [b64encode, b64decode, charSextet_sextetChar h1,
        charSextet_sextetChar h2, charSextet_sextetChar h3,
        charSextet_sextetChar h4]
      simp only [Option.some_bind]
      simp [sextetChar_ne_pad h3, sextetChar_ne_pad h4, ih]
      refine ⟨by omega, by omega, by omega⟩
  | [a, b, c], h => by
      have ha : a < 256 := h a (by simp)
      have hb : b < 256 := h b (by simp)
      have hc : c < 256 := h c (by simp)
      have h1 : a / 4 < 64 := by omega
      have h2 : a % 4 * 16 + b / 16 < 64 := by omega
      have h3 : b % 16 * 4 + c / 64 < 64 := by omega
      have h4 : c % 64 < 64 := by omega
      simp only [b64encode, b64decode, charSextet_sextetChar h1,
        charSextet_sextetChar h2, charSextet_sextetChar h3,
        charSextet_sextetChar h4]
      simp only [Option.some_bind]
      simp [sextetChar_ne_pad h3, sextetChar_ne_pad h4]
      refine ⟨by omega, by omega, by omega⟩

/-- `List.mapIdx` sends byte lists to byte lists when the function does. -/
theorem mapIdx_lt_256 {f : Nat → Nat → Nat}
    (hf : ∀ i b, b < 256 → f i b < 256) :
    ∀ l : List Nat, (∀ x ∈ l, x < 256) → ∀ x ∈ l.mapIdx f, x < 256 := by
  intro l
  induction l generalizing f with
  | nil => simp
  | cons a t ih =>
      intro hl x hx
      rw [List.mapIdx_cons] at hx
      rcases List.mem_cons.mp hx with rfl | hx
      · exact hf 0 a (hl a (by simp))
      · exact ih (fun i b hb => hf (i + 1) b hb)
          (fun y hy => hl y (by simp [hy])) x hx

/-- The GCM stream transform preserves length. -/
theorem gcmStream_length (prf : List Nat → List Nat → Nat → Nat)
    (key nonce data : List Nat) :
    (gcmStream prf key nonce data).length = data.length := by
  simp [gcmStream]

/-- The GCM stream transform yields bytes on bytes. -/
theorem gcmStream_lt_256 (prf : List Nat → List Nat → Nat → Nat)
    (key nonce : List Nat) {data : List Nat} (hd : ∀ x ∈ data, x < 256) :
    ∀ x ∈ gcmStream prf key nonce data, x < 256 := by
  refine mapIdx_lt_256 (fun i b hb => ?_) data hd
  have hk : keystreamByte prf key nonce i < 256 :=
    Nat.mod_lt _ (by norm_num)
  have h8 : (256 : Nat) = 2 ^ 8 := by norm_num
  rw [h8] at hb hk ⊢
  exact Nat.xor_lt_two_pow hb hk

/-- The modelled authentication tag is 16 bytes long. -/
theorem gcmTag_length (macF : List Nat → List Nat → List Nat → Nat → Nat)
    (key nonce ct : List Nat) :
    (gcmTag macF key nonce ct).length = 16 := by
  simp [gcmTag]

/-- Every byte of the modelled authentication tag is a byte. -/
theorem gcmTag_lt_256 (macF : List Nat → List Nat → List Nat → Nat → Nat)
    (key nonce ct : List Nat) :
    ∀ x ∈ gcmTag macF key nonce ct, x < 256 := by
  intro x hx
  simp [gcmTag] at hx
  obtain ⟨i, _, rfl⟩ := hx
  exact Nat.mod_lt _ (by norm_num)

/-- C1 (code_bug): the encrypt/decrypt pair of `class api` does **not**
round-trip.  `api._encrypt_token` lets PyCryptodome pick the GCM nonce, which
is 16 bytes by default, while `api._decrypt_token` re-splits the blob assuming
a 12-byte nonce (as the source's own comment "nonce(12字节)" documents the
intent).  Whatever the cipher primitives are, the re-sliced ciphertext is 4
bytes longer than the token, so decryption either fails the MAC check (a
`ValueError`) or returns a value of the wrong length — never the token. -/
theorem decrypt_token_encrypt_token_ne
    (prf : List Nat → List Nat → Nat → Nat)
    (macF : List Nat → List Nat → List Nat → Nat → Nat)
    (key nonce token : List Nat)
    (hlen : nonce.length = GCM_DEFAULT_NONCE_LEN)
    (hnb : ∀ x ∈ nonce, x < 256) (htb : ∀ x ∈ token, x < 256) :
    decrypt_token prf macF key (encrypt_token prf macF key nonce token) ≠
      Except.ok token := by
  intro hEq
  have hlen16 : nonce.length = 16 := hlen
  set ct := gcmStream prf key nonce token with hct
  set tg := gcmTag macF key nonce ct with htg
  have hbytes : ∀ x ∈ nonce ++ ct ++ tg, x < 256 := by
    intro x hx
    rcases List.mem_append.mp hx with hx' | hx'
    · rcases List.mem_append.mp hx' with h'' | h''
      · exact hnb x h''
      · exact gcmStream_lt_256 prf key nonce htb x h''
    · exact gcmTag_lt_256 macF key nonce ct x hx'
  have hD : (nonce ++ ct ++ tg).length = token.length + 32 := by
    simp [List.length_append, hlen16, gcmStream_length, gcmTag_length, hct,
      htg]
    omega
  simp only [encrypt_token, encrypt_and_digest] at hEq
  unfold decrypt_token at hEq
  rw [b64decode_b64encode _ hbytes] at hEq
  simp only [decrypt_and_verify] at hEq
  split at hEq
  · rename_i pt hmatch
    simp only [Except.ok.injEq] at hEq
    subst hEq
    split at hmatch
    · simp only [Option.some.injEq] at hmatch
      have hlen2 := congrArg List.length hmatch
      rw [gcmStream_length, List.length_take, List.length_drop] at hlen2
      omega
    · exact Option.noConfusion hmatch
  · exact Except.noConfusion hEq

/-- C3: `api._make_request` never raises: it returns a result dict for every
outcome of its single HTTP attempt; its `success` field is `true` exactly when
the parsed platform response is an object whose `code` field equals `1`
(Python `==` semantics); a `RequestException` yields the failure dict with
code `-2` and `data` `None`, and any other exception the failure dict with
code `-3` and `data` `None`. -/
theorem make_request_total_and_classified (o : NetOutcome) :
    ((make_request o).success = true ↔
      ∃ fields, o = .resp fields ∧ codeIsOne fields = true) ∧
    (∀ e, make_request (.reqExc e) =
      { success := false, code := .int (-2)
        message := .str ("网络错误: " ++ e), data := .null }) ∧
    (∀ e, make_request (.otherExc e) =
      { success := false, code := .int (-3)
        message := .str ("未知错误: " ++ e), data := .null }) := by
  refine ⟨?_, fun e => rfl, fun e => rfl⟩
  constructor
  · intro h
    cases o with
    | resp fields => exact ⟨fields, rfl, by simpa [make_request] using h⟩
    | reqExc e => simp [make_request] at h
    | otherExc e => simp [make_request] at h
  · rintro ⟨fields, rfl, hc⟩
    simpa [make_request] using hc

/-- Witness for C1 at a concrete cipher, key, 16-byte nonce and token. -/
theorem decrypt_token_encrypt_token_ne_witness :
    (List.replicate 16 0).length = GCM_DEFAULT_NONCE_LEN ∧
    decrypt_token (fun _ _ _ => 0) (fun _ _ _ _ => 0) []
        (encrypt_token (fun _ _ _ => 0) (fun _ _ _ _ => 0) []
          (List.replicate 16 0) [116]) ≠ Except.ok [116] :=
  ⟨by decide,
   decrypt_token_encrypt_token_ne (fun _ _ _ => 0) (fun _ _ _ _ => 0) []
     (List.replicate 16 0) [116] (by decide) (by decide) (by decide)⟩

/-- C2: in the Fernet-based revision, `save_token t` followed by
`load_token()` returns `True` and leaves the manager's `token` property equal
to `t` — `save_token` sets `_token`, which `load_token` returns at once. -/
theorem save_token_load_token_roundtrip (fernetEncrypt : String → List Nat)
    (fernetDecrypt : List Nat → Option String) (st : TMState) (t : String) :
    (TokenManager.load_token fernetDecrypt
        (TokenManager.save_token fernetEncrypt st t)).1 = true ∧
    (TokenManager.load_token fernetDecrypt
        (TokenManager.save_token fernetEncrypt st t)).2.token = some t :=
  ⟨rfl, rfl⟩

/-- C4: `api._load_token` prefers the encrypted token file: a decryptable
file wins; a missing file or a failed decryption falls back to the
environment variable (which is `none` when unset). -/
theorem load_token_prefers_file (prf : List Nat → List Nat → Nat → Nat)
    (macF : List Nat → List Nat → List Nat → Nat → Nat)
    (key : List Nat) (env : Option (List Nat)) :
    (api.load_token prf macF key none env = env) ∧
    (∀ enc t, decrypt_token prf macF key enc = .ok t →
      api.load_token prf macF key (some enc) env = some t) ∧
    (∀ enc e, decrypt_token prf macF key enc = .error e →
      api.load_token prf macF key (some enc) env = env) := by
  refine ⟨rfl, fun enc t h => ?_, fun enc e h => ?_⟩
  · simp [api.load_token, h]
  · simp [api.load_token, h]

/-- Witness for C4: all three branches at concrete inputs (the middle one
uses a blob the degenerate cipher accepts, which decrypts to the empty
token). -/
theorem load_token_prefers_file_witness :
    api.load_token (fun _ _ _ => 0) (fun _ _ _ _ => 0) [] none (some [7]) =
      some [7] ∧
    api.load_token (fun _ _ _ => 0) (fun _ _ _ _ => 0) []
        (some (b64encode (List.replicate 28 0))) (some [7]) = some [] ∧
    api.load_token (fun _ _ _ => 0) (fun _ _ _ _ => 0) [] (some [0])
        (some [7]) = some [7] :=
  ⟨(load_token_prefers_file (fun _ _ _ => 0) (fun _ _ _ _ => 0) []
      (some [7])).1,
   (load_token_prefers_file (fun _ _ _ => 0) (fun _ _ _ _ => 0) []
      (some [7])).2.1 (b64encode (List.replicate 28 0)) [] (by rfl),
   (load_token_prefers_file (fun _ _ _ => 0) (fun _ _ _ _ => 0) []
      (some [7])).2.2 [0] "无效的加密令牌" (by rfl)⟩

/-- C5 (code_bug): the `return` of `Tag.edit`'s `except` clause
(`src/openapi.py` line 273) opens two brackets — the dict display and the
`str(` call — that it never closes, so the statement is unterminated and the
module raises `SyntaxError` on import: none of the methods of `User`, `Admin`
or `Tag` is ever defined or callable. -/
theorem tag_edit_except_line_unbalanced :
    bracketBalance tag_edit_except_line = 2 := by rfl

/-- Once `load_token` has answered `True`, the state it returns answers
`True` again, unchanged (the token is now in memory). -/
theorem load_token_idem (fernetDecrypt : List Nat → Option String)
    (st st1 : TMState)
    (h : TokenManager.load_token fernetDecrypt st = (true, st1)) :
    TokenManager.load_token fernetDecrypt st1 = (true, st1) := by
  unfold TokenManager.load_token at h ⊢
  cases hstok : st.token with
  | some t =>
      simp only [hstok, Prod.mk.injEq, true_and] at h
      subst h
      simp [hstok]
  | none =>
      cases hfile : st.token_file with
      | none => simp [hstok, hfile] at h
      | some enc =>
          cases hdec : fernetDecrypt enc with
          | none => simp [hstok, hfile, hdec] at h
          | some t =>
              simp only [hstok, hfile, hdec, Prod.mk.injEq, true_and] at h
              subst h
              simp

/-- C6 (corrected): in the synchronous revision `api.unban(g, u)` is exactly
`api.ban_request(u, g, "0")`; in the asynchronous revision `Admin.unban` is
`Admin.ban` with the **integer** duration `0` (the value the source passes),
which sends `gag = 0`. -/
theorem unban_is_ban_zero (net : SyncRequest → NetOutcome) (g u : String)
    (fernetDecrypt : List Nat → Option String) (anet : ANet) (st : TMState) :
    api.unban net g u = api.ban_request net u g "0" ∧
    Admin.unban fernetDecrypt anet st g u =
      Admin.ban fernetDecrypt anet st g u (.int 0) := by
  refine ⟨rfl, ?_⟩
  simp only [Admin.unban, Admin.ban]
  unfold require_token
  rcases hL : TokenManager.load_token fernetDecrypt st with ⟨b, st1⟩
  cases b
  · rfl
  · have h1 := load_token_idem fernetDecrypt st st1 hL
    simp [require_token, h1]

/-- C6 counterexample: with a token in memory and a platform that answers
`code = 1` to a `gag` field holding a JSON integer but `code = 2` to one
holding a JSON string, `Admin.unban` (which sends the integer `0`) differs
from `Admin.ban` invoked with the string duration `"0"` (which sends the
string unconverted). -/
theorem unban_ne_ban_str_zero :
    Admin.unban (fun _ => none)
        (fun req => match req.data with
          | [_, _, (_, JVal.int _)] => .ok (.obj [("code", .int 1)])
          | _ => .ok (.obj [("code", .int 2)]))
        ⟨some "tk", none⟩ "g" "u" ≠
      Admin.ban (fun _ => none)
        (fun req => match req.data with
          | [_, _, (_, JVal.int _)] => .ok (.obj [("code", .int 1)])
          | _ => .ok (.obj [("code", .int 2)]))
        ⟨some "tk", none⟩ "g" "u" (.str "0") := by
  intro h
  have h2 : (JVal.obj [("code", .int 1)]) = (JVal.obj [("code", .int 2)]) := by
    have e1 :
        (Admin.unban (fun _ => none)
          (fun req => match req.data with
            | [_, _, (_, JVal.int _)] => .ok (.obj [("code", .int 1)])
            | _ => .ok (.obj [("code", .int 2)]))
          ⟨some "tk", none⟩ "g" "u").1 = JVal.obj [("code", .int 1)] := rfl
    have e2 :
        (Admin.ban (fun _ => none)
          (fun req => match req.data with
            | [_, _, (_, JVal.int _)] => .ok (.obj [("code", .int 1)])
            | _ => .ok (.obj [("code", .int 2)]))
          ⟨some "tk", none⟩ "g" "u" (.str "0")).1 =
          JVal.obj [("code", .int 2)] := rfl
    have h1 := congrArg Prod.fst h
    rw [e1, e2] at h1
    exact h1
  simp at h2

/-- C7 (corrected): when a **nonempty** token is present, `api.login` with
`force = false` and `User.login` return their "already logged in" success
dicts with no HTTP request and the state unchanged.  (An empty-string token
is present but falsy in Python, so it does not short-circuit — see the
counterexample.) -/
theorem login_uses_existing_token
    (prf : List Nat → List Nat → Nat → Nat)
    (macF : List Nat → List Nat → List Nat → Nat → Nat)
    (key nonce : List Nat) (strBytes : String → List Nat)
    (net : SyncRequest → NetOutcome) (st : api.State)
    (email password t : String) (hst : st.token = some t) (ht : t ≠ "")
    (anet : ANet) (ast : TMState)
    (t2 : String) (hast : ast.token = some t2) (ht2 : t2 ≠ "") :
    api.login prf macF key nonce strBytes net st email password false =
      .ok ({ success := true, code := .int 1
             message := .str "使用现有令牌", data := .null }, st, []) ∧
    User.login anet ast email password =
      (.obj [("code", .int 1), ("msg", .str "already logged in")], ast, []) := by
  constructor
  · simp [api.login, pyTruthy, hst, ht]
  · simp [User.login, pyTruthy, hast, ht2]

/-- Witness for C7 at a concrete nonempty token. -/
theorem login_uses_existing_token_witness :
    api.login (fun _ _ _ => 0) (fun _ _ _ _ => 0) [] [] (fun _ => [])
        (fun _ => .reqExc "down") ⟨some "T", some "T", none, none⟩
        "e" "p" false =
      .ok ({ success := true, code := .int 1
             message := .str "使用现有令牌", data := .null },
           ⟨some "T", some "T", none, none⟩, []) ∧
    User.login (fun _ => .error "down") ⟨some "T", none⟩
        "e" "p" =
      (.obj [("code", .int 1), ("msg", .str "already logged in")],
       ⟨some "T", none⟩, []) :=
  login_uses_existing_token (fun _ _ _ => 0) (fun _ _ _ _ => 0) [] []
    (fun _ => []) (fun _ => .reqExc "down") ⟨some "T", some "T", none, none⟩
    "e" "p" "T" rfl (by decide) (fun _ => .error "down")
    ⟨some "T", none⟩ "T" rfl (by decide)

/-- C7 counterexample: with the token `""` — present but falsy — both login
implementations fall through to the network and issue one HTTP request,
refuting the claim as stated (which promises an early success with no
request whenever a token is present). -/
theorem login_empty_token_requests :
    ((api.login (fun _ _ _ => 0) (fun _ _ _ _ => 0) [] [] (fun _ => [])
        (fun _ => .resp [("code", .int 0)]) ⟨some "", none, none, none⟩
        "e" "p" false).toOption.map (fun r => r.2.2.length) = some 1) ∧
    ((User.login (fun _ => .ok (.obj [("code", .int 0)]))
        ⟨some "", none⟩ "e" "p").2.2.length = 1) :=
  ⟨rfl, rfl⟩

/-- C8: `AsyncHTTPClient.request` and each convenience wrapper issue exactly
one underlying HTTP attempt per call, whatever the oracle answers — there is
no retry. -/
theorem request_single_attempt
    (net : HttpRequest → Except String HttpResponse) (rfs : Bool)
    (ch : List (String × String)) (m url : String)
    (params : Option (List (String × JVal))) (data : Option JVal)
    (json : Option (List (String × JVal))) (headers : List (String × String))
    (cookies : Option (List (String × String))) (ar : Bool) :
    (AsyncHTTPClient.request net rfs ch m url params data json headers
        cookies ar).2.length = 1 ∧
    (AsyncHTTPClient.get net rfs ch url params headers cookies ar).2.length
        = 1 ∧
    (AsyncHTTPClient.post net rfs ch url data json params headers cookies
        ar).2.length = 1 ∧
    (AsyncHTTPClient.put net rfs ch url data json params headers cookies
        ar).2.length = 1 ∧
    (AsyncHTTPClient.delete net rfs ch url params headers cookies
        ar).2.length = 1 :=
  ⟨rfl, rfl, rfl, rfl, rfl⟩

/-- C9: when `TokenManager().load_token()` fails, every `require_token`-guarded
method — `Admin.ban`, `Admin.unban`, `Admin.kick`, `Tag.edit`, `Tag.add`,
`Tag.rm` — returns `{"code": -1, "msg": "Authentication required"}` and
issues no HTTP request. -/
theorem require_token_guard (fernetDecrypt : List Nat → Option String)
    (net : ANet) (st : TMState) (g u msg color : String)
    (d idv descv : JVal) (sort : Int)
    (hload : (TokenManager.load_token fernetDecrypt st).1 = false) :
    Admin.ban fernetDecrypt net st g u d =
      (.obj [("code", .int (-1)), ("msg", .str "Authentication required")],
       (TokenManager.load_token fernetDecrypt st).2, []) ∧
    Admin.unban fernetDecrypt net st g u =
      (.obj [("code", .int (-1)), ("msg", .str "Authentication required")],
       (TokenManager.load_token fernetDecrypt st).2, []) ∧
    Admin.kick fernetDecrypt net st g u =
      (.obj [("code", .int (-1)), ("msg", .str "Authentication required")],
       (TokenManager.load_token fernetDecrypt st).2, []) ∧
    Tag.edit fernetDecrypt net st g idv msg color descv sort =
      (.obj [("code", .int (-1)), ("msg", .str "Authentication required")],
       (TokenManager.load_token fernetDecrypt st).2, []) ∧
    Tag.add fernetDecrypt net st g msg color descv sort =
      (.obj [("code", .int (-1)), ("msg", .str "Authentication required")],
       (TokenManager.load_token fernetDecrypt st).2, []) ∧
    Tag.rm fernetDecrypt net st idv =
      (.obj [("code", .int (-1)), ("msg", .str "Authentication required")],
       (TokenManager.load_token fernetDecrypt st).2, []) := by
  rcases hp : TokenManager.load_token fernetDecrypt st with ⟨b, st2⟩
  rw [hp] at hload
  simp only at hload
  subst hload
  refine ⟨?_, ?_, ?_, ?_, ?_, ?_⟩ <;>
    simp [Admin.ban, Admin.unban, Admin.kick, Tag.edit, Tag.add, Tag.rm,
      require_token, hp]

/-- Witness for C9: no token in memory and no token file. -/
theorem require_token_guard_witness :
    Admin.ban (fun _ => none) (fun _ => .error "down") ⟨none, none⟩
        "g" "u" (.int 0) =
      (.obj [("code", .int (-1)), ("msg", .str "Authentication required")],
       ⟨none, none⟩, []) ∧
    Tag.rm (fun _ => none) (fun _ => .error "down") ⟨none, none⟩ (.int 3) =
      (.obj [("code", .int (-1)), ("msg", .str "Authentication required")],
       ⟨none, none⟩, []) :=
  ⟨(require_token_guard (fun _ => none) (fun _ => .error "down")
      ⟨none, none⟩ "g" "u" "m" "c" (.int 0) (.int 1) .null 0 rfl).1,
   (require_token_guard (fun _ => none) (fun _ => .error "down")
      ⟨none, none⟩ "g" "u" "m" "c" (.int 0) (.int 3) .null 0
      rfl).2.2.2.2.2⟩

/-- C10: `api.ban_request` rejects every `time` outside
`{"10", "1h", "6h", "12h", "0"}` with the code `-4` failure dict and no
request; for the allowed values it sends `gag` = 600, 6000, 21600, 43200 and
0 respectively, labelled 取消禁言 exactly for `"0"` and 禁言 otherwise. -/
theorem ban_request_time_guard (net : SyncRequest → NetOutcome)
    (u g : String) :
    (∀ t, t ∉ api.allow_time →
      api.ban_request net u g t =
        ({ success := false, code := .int (-4)
           message := .str ("不支持的时间参数: " ++ t), data := .null },
         [])) ∧
    api.ban_request net u g "10" =
      (make_request (net
        { url := "https://chat-go.jwzhd.com/v1/group/gag-member"
          data := [("groupId", .str g), ("userId", .str u),
                   ("gag", .int 600)], action := "禁言" }),
       [{ url := "https://chat-go.jwzhd.com/v1/group/gag-member"
          data := [("groupId", .str g), ("userId", .str u),
                   ("gag", .int 600)], action := "禁言" }]) ∧
    api.ban_request net u g "1h" =
      (make_request (net
        { url := "https://chat-go.jwzhd.com/v1/group/gag-member"
          data := [("groupId", .str g), ("userId", .str u),
                   ("gag", .int 6000)], action := "禁言" }),
       [{ url := "https://chat-go.jwzhd.com/v1/group/gag-member"
          data := [("groupId", .str g), ("userId", .str u),
                   ("gag", .int 6000)], action := "禁言" }]) ∧
    api.ban_request net u g "6h" =
      (make_request (net
        { url := "https://chat-go.jwzhd.com/v1/group/gag-member"
          data := [("groupId", .str g), ("userId", .str u),
                   ("gag", .int 21600)], action := "禁言" }),
       [{ url := "https://chat-go.jwzhd.com/v1/group/gag-member"
          data := [("groupId", .str g), ("userId", .str u),
                   ("gag", .int 21600)], action := "禁言" }]) ∧
    api.ban_request net u g "12h" =
      (make_request (net
        { url := "https://chat-go.jwzhd.com/v1/group/gag-member"
          data := [("groupId", .str g), ("userId", .str u),
                   ("gag", .int 43200)], action := "禁言" }),
       [{ url := "https://chat-go.jwzhd.com/v1/group/gag-member"
          data := [("groupId", .str g), ("userId", .str u),
                   ("gag", .int 43200)], action := "禁言" }]) ∧
    api.ban_request net u g "0" =
      (make_request (net
        { url := "https://chat-go.jwzhd.com/v1/group/gag-member"
          data := [("groupId", .str g), ("userId", .str u),
                   ("gag", .int 0)], action := "取消禁言" }),
       [{ url := "https://chat-go.jwzhd.com/v1/group/gag-member"
          data := [("groupId", .str g), ("userId", .str u),
                   ("gag", .int 0)], action := "取消禁言" }]) := by
    refine ⟨fun t ht => ?_, rfl, rfl, rfl, rfl, rfl⟩
    rw [api.ban_request, if_neg]
    simpa using ht

/-- Witness for C10: the unsupported duration `"5m"`. -/
theorem ban_request_time_guard_witness :
    "5m" ∉ api.allow_time ∧
    api.ban_request (fun _ => .reqExc "down") "u" "g" "5m" =
      ({ success := false, code := .int (-4)
         message := .str ("不支持的时间参数: " ++ "5m"), data := .null },
       []) :=
  ⟨by decide,
   (ban_request_time_guard (fun _ => .reqExc "down") "u" "g").1 "5m"
     (by decide)⟩

end YhSDK
